import Mathlib

/-!
Verification of the HealthWise AI query-understanding and retrieval pipeline.

The definitions below are a shallow embedding of the Python source:
`streamlit_app.py` (`process_chat_query` and the `generate_*` response
composers), `utils/nlp_utils.py` (`sanitize_input`, `predict_intent`,
`extract_entities`) and `utils/data_utils.py`
(`KnowledgeGraphRetriever.__init__` document construction and `search`).

Modelling conventions:
- Python strings are Lean `String`; `text.strip()` is modelled over the
  ASCII whitespace characters; `text.lower()` is ASCII lowercasing (every
  keyword in the source is ASCII).
- Python `needle in hay` is the executable substring test `pyIn`.
- Floating point confidences are rationals; the source only compares and
  stores the fixed literals 1.0, 0.95, 0.90, 0.85.
- The pre-trained statistical intent model, the spaCy pipeline and the
  fitted TF-IDF vectorizer with its cosine similarities are external
  black boxes; they enter the embedding as function parameters.  Fallible
  calls into those dependencies are modelled with `Except`, where an
  uncaught Python exception is `Except.error` propagated by `do`-bind.
- `numpy.argsort` on the similarity row is modelled as the ascending
  stable argsort: the unique permutation of the row indices sorted by the
  pair (similarity value, original index) lexicographically.
-/

/-! ## Python string primitives -/

/-- ASCII whitespace recognised by Python `str.strip()`. -/
def isPySpace (c : Char) : Bool :=
  c == ' ' || c == '\t' || c == '\n' || c == '\r' || c == '\x0b' || c == '\x0c'

/-- Python `str.strip()` on the underlying character list. -/
def stripList (l : List Char) : List Char :=
  ((l.dropWhile isPySpace).reverse.dropWhile isPySpace).reverse

/-- Embedding of `NLPProcessor.sanitize_input`: `text.strip()` followed by `text[:1000]`. -/
def sanitizeInput (s : String) : String :=
  ⟨(stripList s.data).take 1000⟩

/-- ASCII lowercasing of one character, as Python `str.lower()` does on ASCII. -/
def lowerChar (c : Char) : Char :=
  if 65 ≤ c.toNat && c.toNat ≤ 90 then Char.ofNat (c.toNat + 32) else c

/-- Python `str.lower()` (ASCII fragment). -/
def lowerStr (s : String) : String :=
  ⟨s.data.map lowerChar⟩

/-- Substring occurrence on character lists: `occursIn n h` holds when the
list `n` appears contiguously inside `h`. -/
def occursIn (ned : List Char) : List Char → Bool
  | [] => ned.isEmpty
  | c :: t => ned.isPrefixOf (c :: t) || occursIn ned t

/-- Python `needle in hay` for strings. -/
def pyIn (ned hay : String) : Bool :=
  occursIn ned.data hay.data

/-- Python `s * n`: the string repeated `n` times. -/
def pyRepeat (s : String) : Nat → String
  | 0 => ""
  | n + 1 => s ++ pyRepeat s n

example : sanitizeInput ("  hello  ") = "hello" := by decide
example : lowerStr ("Chest PAIN") = "chest pain" := by decide
example : pyIn ("chest") ("i have chest pain") = true := by decide
example : pyIn ("arm") ("pharmacy") = true := by decide
example : pyIn ("xyz") ("abc") = false := by decide
example : pyRepeat ("a b") 5 = "a ba ba ba ba b" := by rfl

/-! ## Intent classifier (`NLPProcessor.predict_intent`) -/

/-- Mental health keyword group (priority 1) of `predict_intent`. -/
def stressKeywords : List String :=
  ["stress", "stressed", "anxiety", "anxious", "panic", "worry",
   "worried", "overwhelm", "nervous", "fear", "depression",
   "depressed", "sad", "hopeless", "burnout"]

/-- Mental health action keywords of `predict_intent`. -/
def stressActions : List String :=
  ["reduce", "manage", "cope", "deal", "handle", "help", "relief"]

/-- Medication keyword group (priority 2) of `predict_intent`. -/
def medKeywords : List String :=
  ["medication", "medicine", "drug", "pill", "prescription",
   "metformin", "aspirin", "ibuprofen", "lisinopril", "statin",
   "side effect", "dosage", "take", "antibiotic"]

/-- Medication question patterns of `predict_intent`. -/
def medQuestions : List String :=
  ["what is", "what does", "how to take", "side effects of",
   "interactions", "used for", "safe to"]

/-- First person symptom phrases (priority 3) of `predict_intent`. -/
def symptomPhrases : List String :=
  ["i have", "i feel", "i am feeling", "experiencing",
   "pain in", "hurts", "ache", "aching", "sore"]

/-- Bare symptom words (priority 3 fallback) of `predict_intent`. -/
def symptomWords : List String :=
  ["headache", "fever", "cough", "nausea", "dizzy", "tired",
   "fatigue", "bleeding", "swelling", "rash", "infection"]

/-- Wellness topic keywords (priority 4) of `predict_intent`. -/
def wellnessTopics : List String :=
  ["sleep", "diet", "nutrition", "exercise", "food", "eat",
   "weight", "fitness", "healthy", "health tips", "wellness",
   "heart health", "immune", "energy", "meal"]

/-- Wellness action keywords of `predict_intent`. -/
def wellnessActions : List String :=
  ["improve", "boost", "better", "tips", "how to", "ways to",
   "help me", "advice", "recommend"]

/-- Health summary keywords (priority 5) of `predict_intent`. -/
def summaryKeywords : List String :=
  ["summary", "status", "report", "history", "overview",
   "show my", "my health", "my data", "trends"]

def mentalHealthIntent : String := "mental_health"

def medicationIntent : String := "medication_explainer"

def symptomIntent : String := "symptom_checker"

def wellnessIntent : String := "general_wellness"

def summaryIntent : String := "health_summary"

def questionMark : String := "?"

/-- Priority 1 trigger of `predict_intent` on the raw input: a stress
keyword in the sanitized lowercased text, together with a stress action
keyword or a question mark in the sanitized text. -/
def mentalHealthRule (text0 : String) : Bool :=
  let text := sanitizeInput text0
  let tl := lowerStr text
  stressKeywords.any (fun kw => pyIn kw tl) &&
    (stressActions.any (fun act => pyIn act tl) || pyIn questionMark text)

/-- Priority 2 trigger of `predict_intent`: a medication keyword together
with a medication question pattern, both in the sanitized lowercased text. -/
def medicationRule (text0 : String) : Bool :=
  let tl := lowerStr (sanitizeInput text0)
  medKeywords.any (fun kw => pyIn kw tl) &&
    medQuestions.any (fun q => pyIn q tl)

/-- Priority 3 trigger of `predict_intent`: a first person symptom phrase. -/
def symptomPhraseRule (text0 : String) : Bool :=
  let tl := lowerStr (sanitizeInput text0)
  symptomPhrases.any (fun p => pyIn p tl)

/-- Priority 3 fallback trigger of `predict_intent`: a bare symptom word. -/
def symptomWordRule (text0 : String) : Bool :=
  let tl := lowerStr (sanitizeInput text0)
  symptomWords.any (fun w => pyIn w tl)

/-- Priority 4 trigger of `predict_intent`: a wellness topic together with
a wellness action keyword. -/
def wellnessRule (text0 : String) : Bool :=
  let tl := lowerStr (sanitizeInput text0)
  wellnessTopics.any (fun t => pyIn t tl) &&
    wellnessActions.any (fun act => pyIn act tl)

/-- Priority 5 trigger of `predict_intent`: a summary keyword. -/
def summaryRule (text0 : String) : Bool :=
  let tl := lowerStr (sanitizeInput text0)
  summaryKeywords.any (fun kw => pyIn kw tl)

/-- Embedding of `NLPProcessor.predict_intent`: the fixed priority cascade of rule
groups; the first matching group returns its label and fixed confidence,
and only when no group matches is the pre-trained statistical model `ml`
consulted (on the sanitized text, as the source transforms `text`). -/
def predictIntent (ml : String → String × ℚ) (text0 : String) : String × ℚ :=
  if mentalHealthRule text0 then (mentalHealthIntent, 95 / 100)
  else if medicationRule text0 then (medicationIntent, 95 / 100)
  else if symptomPhraseRule text0 then (symptomIntent, 90 / 100)
  else if symptomWordRule text0 then (symptomIntent, 85 / 100)
  else if wellnessRule text0 then (wellnessIntent, 90 / 100)
  else if summaryRule text0 then (summaryIntent, 95 / 100)
  else ml (sanitizeInput text0)

example :
    predictIntent (fun _ => ("", 0)) ("How can I improve my sleep?") =
      (wellnessIntent, 90 / 100) := by rfl

example :
    predictIntent (fun _ => ("", 0)) ("What is aspirin? I feel so much stress") =
      (mentalHealthIntent, 95 / 100) := by rfl

/-! ## Entity extractor (`NLPProcessor.extract_entities`) -/

/-- One spaCy named entity: a surface text with a type label. -/
structure SpacyEnt where
  label : String
  text : String

/-- The result of running the external spaCy pipeline on a text: named
entities and noun chunk surface texts. -/
structure SpacyDoc where
  ents : List SpacyEnt
  nounChunks : List String

/-- The entity dictionary built by `extract_entities`. -/
structure EntityBag where
  symptoms : List String
  body_parts : List String
  medications : List String
  general : List String

/-- Pain indicator substrings used by the noun chunk pass. -/
def painWords : List String := ["pain", "ache", "hurt", "sore"]

def diseaseLabel : String := "DISEASE"

def symptomLabel : String := "SYMPTOM"

def productLabel : String := "PRODUCT"

def orgLabel : String := "ORG"

/-- The named entity pass of `extract_entities`: bucket each entity by its
label into symptoms, medications or general. -/
def entPass (b : EntityBag) (ent : SpacyEnt) : EntityBag :=
  if ent.label == diseaseLabel || ent.label == symptomLabel then
    { b with symptoms := b.symptoms ++ [ent.text] }
  else if ent.label == productLabel || ent.label == orgLabel then
    { b with medications := b.medications ++ [ent.text] }
  else
    { b with general := b.general ++ [ent.text] }

/-- The noun chunk pass of `extract_entities`: a chunk whose lowercased
text contains a pain indicator is appended to symptoms. -/
def chunkPass (b : EntityBag) (chunk : String) : EntityBag :=
  if painWords.any (fun w => pyIn w (lowerStr chunk)) then
    { b with symptoms := b.symptoms ++ [chunk] }
  else b

/-- Embedding of `NLPProcessor.extract_entities`: sanitize, run the external spaCy
pipeline `nlp`, then the named entity pass followed by the noun chunk
pass over an initially empty bag. -/
def extractEntities (nlp : String → SpacyDoc) (text0 : String) : EntityBag :=
  let doc := nlp (sanitizeInput text0)
  let bag0 : EntityBag := ⟨[], [], [], []⟩
  let bag1 := doc.ents.foldl entPass bag0
  doc.nounChunks.foldl chunkPass bag1

/-! ## Knowledge retriever (`KnowledgeGraphRetriever`) -/

/-- One knowledge base record: topic, ordered keywords, content. -/
structure KGEntry where
  topic : String
  keywords : List String
  content : String
deriving DecidableEq

/-- The synthetic search document built in
`KnowledgeGraphRetriever.__init__` for one entry: the Python f-string
interpolation of the topic, the space-joined keywords repeated five times
by string multiplication, and the content. -/
def buildDocument (e : KGEntry) : String :=
  e.topic ++ " " ++ pyRepeat (String.intercalate (" ") e.keywords) 5 ++ " " ++ e.content

/-- The document list of the index: one document per entry, in order. -/
def buildDocuments (kg : List KGEntry) : List String :=
  kg.map buildDocument

/-- The search document as the specification describes it: the keyword
sequence itself repeated five times and then space-joined, so that every
adjacent pair of keyword occurrences, including across repetitions, is
separated by a space. -/
def specDocument (e : KGEntry) : String :=
  e.topic ++ " " ++
    String.intercalate (" ")
      (e.keywords ++ e.keywords ++ e.keywords ++ e.keywords ++ e.keywords) ++
    " " ++ e.content

/-- The strict ascending argsort order on row indices: by similarity
value first, then by original index.  A stable ascending sort of the
similarity row is exactly the sort of the indices under this relation. -/
def argsortRel (sim : Nat → ℚ) (i j : Nat) : Prop :=
  sim i < sim j ∨ (sim i = sim j ∧ i ≤ j)

instance (sim : Nat → ℚ) : DecidableRel (argsortRel sim) := fun _ _ =>
  inferInstanceAs (Decidable (_ ∨ _))

/-- Embedding of `similarities.argsort()` for a row of `n` similarities: the ascending
stable argsort, modelled as sorting the indices `0..n-1` by
(value, index) lexicographically. -/
def argsortSim (sim : Nat → ℚ) (n : Nat) : List Nat :=
  List.insertionSort (argsortRel sim) (List.range n)

/-- Python `l[-k:]` for a natural `k`: the whole list when `k = 0`
(because `-0 == 0`), otherwise the last `k` elements. -/
def pySliceLast (l : List α) (k : Nat) : List α :=
  if k = 0 then l else l.drop (l.length - k)

/-- The `top_indices` of `KnowledgeGraphRetriever.search`:
`similarities.argsort()[-top_k:][::-1]`. -/
def searchIndices (sim : Nat → ℚ) (n k : Nat) : List Nat :=
  (pySliceLast (argsortSim sim n) k).reverse

/-- Embedding of `KnowledgeGraphRetriever.search`, with the fitted vectorizer and the
cosine similarity row abstracted into `sim`, where `sim i` is the cosine
similarity of the query vector with row `i` of the TF-IDF matrix.  The
final loop keeps `knowledge_graph[idx]` for each index below the knowledge
base length. -/
def searchModel (sim : Nat → ℚ) (kg : List KGEntry) (k : Nat) : List KGEntry :=
  (searchIndices sim kg.length k).filterMap (fun idx => kg[idx]?)

example : argsortSim (fun _ => 0) 2 = [0, 1] := by rfl
example : searchIndices (fun _ => 0) 2 2 = [1, 0] := by rfl

/-! ## Query pipeline (`process_chat_query` in `streamlit_app.py`) -/

/-- The `emergency_keywords` list of `process_chat_query`. -/
def emergencyKeywords : List String :=
  ["chest pain", "chest pressure", "crushing chest", "tight chest",
   "pain radiating", "pain down arm", "pain in jaw",
   "shortness of breath", "difficulty breathing", "can\x27t breathe",
   "sudden severe headache", "worst headache", "severe headache",
   "confusion", "slurred speech", "face drooping", "arm weakness",
   "severe bleeding", "bleeding heavily", "won\x27t stop bleeding",
   "suicidal", "want to die", "kill myself", "end my life",
   "passed out", "loss of consciousness", "can\x27t wake up"]

/-- The self-harm phrase list of the suicidal ideation check. -/
def crisisKeywords : List String :=
  ["suicidal", "kill myself", "want to die", "end my life"]

def chestWord : String := "chest"

def heartWord : String := "heart"

def armWord : String := "arm"

/-- The `is_emergency` flag of `process_chat_query`: some emergency keyword occurs
in the lowercased query. -/
def isEmergencyMatch (query : String) : Bool :=
  emergencyKeywords.any (fun kw => pyIn kw (lowerStr query))

/-- The second half of the emergency gate: the lowercased query contains
the substring chest, heart or arm. -/
def hasCardiacWord (query : String) : Bool :=
  pyIn chestWord (lowerStr query) || pyIn heartWord (lowerStr query) ||
    pyIn armWord (lowerStr query)

/-- The complete condition of the emergency branch of `process_chat_query`. -/
def emergencyBranch (query : String) : Bool :=
  isEmergencyMatch query && hasCardiacWord query

/-- The condition of the crisis branch of `process_chat_query`. -/
def crisisMatch (query : String) : Bool :=
  crisisKeywords.any (fun w => pyIn w (lowerStr query))

/-- The hardcoded cardiac emergency script of `process_chat_query`. -/
def emergencyResponseMsg : String :=
  String.intercalate ("\n")
    ["🚨 **EMERGENCY - CALL 112 IMMEDIATELY** 🚨",
     "",
     "The symptoms you\x27re describing (chest pain/pressure with pain radiating to arm) are **warning signs of a possible heart attack**.",
     "",
     "**DO NOT WAIT - CALL 112 NOW**",
     "",
     "While waiting for emergency services:",
     "- Stop what you\x27re doing and sit or lie down",
     "- Chew an aspirin if available (unless allergic)",
     "- Loosen tight clothing",
     "- Stay calm and don\x27t drive yourself",
     "",
     "**Heart Attack Warning Signs:**",
     "- Chest pain, pressure, or discomfort",
     "- Pain radiating to arms, jaw, neck, or back",
     "- Shortness of breath",
     "- Cold sweats, nausea, lightheadedness",
     "",
     "⚠️ **This is a medical emergency. I\x27m an AI chatbot and cannot provide emergency care. Call 112 or your local emergency number immediately.**"]

/-- The hardcoded crisis support script of `process_chat_query`. -/
def crisisResponseMsg : String :=
  String.intercalate ("\n")
    ["🆘 **CRISIS SUPPORT AVAILABLE** 🆘",
     "",
     "If you\x27re having thoughts of suicide, please reach out for help immediately:",
     "",
     "**Immediate Help:**",
     "- Nigeria Red Cross Society: **0803 123 0430, 0809 993 7357**",
     "- 📱 Emergency Response Africa (ERA): **0 8000 2255 372**",
     "- 🚨 Emergency Services: **112**",
     "",
     "**You are not alone.** These feelings are temporary, and help is available 24/7.",
     "",
     "**What to do right now:**",
     "1. Call one of the numbers above - counselors are ready to listen",
     "2. Stay with someone or go to a public place",
     "3. Remove access to means of self-harm",
     "4. Go to nearest emergency room if in immediate danger",
     "",
     "I\x27m an AI and can\x27t provide crisis counseling, but trained professionals are waiting to help you. Please reach out right now - your life matters.",
     "",
     "**International Crisis Lines:** https://www.opencounseling.com/suicide-hotlines"]

/-- Embedding of `generate_health_summary`: the fixed mock summary, independent of the
retrieval results. -/
def healthSummaryText : String :=
  String.intercalate ("\n")
    ["**Your Health Summary:**",
     "",
     "📊 **Recent Activity:**",
     "- Last check-in: 2 days ago",
     "- Wellness tips viewed: 5 this week",
     "",
     "🎯 **Your Health Goals:**",
     "- General wellness maintenance",
     "- Improve sleep quality",
     "",
     "💡 **Recommendation:** You\x27re doing great! Keep up with your wellness routine. Consider exploring our sleep hygiene tips for better rest.",
     "",
     "*Note: This is a demo summary. In production, this would show real user data from integrated health devices and logs.*"]

/-- The empty-retrieval fallback of `generate_symptom_response`. -/
def symptomFallback : String :=
  "I understand you\x27re experiencing symptoms. While I can provide general information, it\x27s important to consult with a healthcare provider for proper evaluation. Could you describe your symptoms in more detail?"

/-- The empty-retrieval fallback of `generate_medication_response`. -/
def medicationFallback : String :=
  "I don\x27t have specific information about that medication in my knowledge base. Please consult your pharmacist or healthcare provider for accurate medication information."

/-- The empty-retrieval fallback of `generate_wellness_response`. -/
def wellnessFallback : String :=
  "I\x27d be happy to provide wellness guidance. Could you be more specific about what aspect of wellness you\x27re interested in? (e.g., sleep, nutrition, exercise, stress management)"

/-- The empty-retrieval fallback of `generate_mental_health_response`. -/
def mentalHealthFallback : String :=
  "Mental health is incredibly important. While I can provide general guidance, please consider speaking with a mental health professional who can provide personalized support. How can I help you today?"

/-- The generic clarification reply of the unrecognized-intent branch of
`process_chat_query`. -/
def genericResponse : String :=
  "I\x27m here to help with your health questions. Could you please rephrase that?"

/-- Embedding of `generate_symptom_response`. -/
def generateSymptomResponse (query : String) (kgResults : List KGEntry)
    (entities : EntityBag) : String :=
  match kgResults with
  | mainResult :: _ =>
    let r := "**Based on what you\x27ve described:**\n\n" ++ mainResult.content ++ "\n\n"
    let r := if entities.symptoms.isEmpty then r
      else r ++ "**Identified symptoms:** " ++
        String.intercalate (", ") entities.symptoms ++ "\n\n"
    r ++ "⚠️ **Important:** This is educational information only. Please consult a healthcare provider for proper diagnosis and treatment."
  | [] => symptomFallback

/-- Embedding of `generate_medication_response`. -/
def generateMedicationResponse (kgResults : List KGEntry) : String :=
  match kgResults with
  | mainResult :: _ =>
    "**Medication Information:**\n\n" ++ mainResult.content ++ "\n\n" ++
      "💊 **Remember:** Always take medications as prescribed by your healthcare provider. Never adjust dosages without consulting your doctor."
  | [] => medicationFallback

/-- Embedding of `generate_wellness_response`. -/
def generateWellnessResponse (kgResults : List KGEntry) : String :=
  match kgResults with
  | mainResult :: _ =>
    "**Wellness Advice:**\n\n" ++ mainResult.content ++ "\n\n" ++
      "✨ Remember, small consistent changes lead to lasting improvements in health!"
  | [] => wellnessFallback

/-- Embedding of `generate_mental_health_response`. -/
def generateMentalHealthResponse (kgResults : List KGEntry) : String :=
  match kgResults with
  | mainResult :: _ =>
    "**Mental Health Support:**\n\n" ++ mainResult.content ++ "\n\n" ++
      "🧠 **Support Resources:** If you\x27re in crisis or need immediate help, please contact:\n" ++
      "- National Suicide Prevention Lifeline: 988\n" ++
      "- Crisis Text Line: Text HOME to 741741\n" ++
      "- Your local emergency services: 911"
  | [] => mentalHealthFallback

/-- The response dispatch of `process_chat_query` (the if/elif chain on
the predicted intent). -/
def composeResponse (intent query : String) (kgResults : List KGEntry)
    (entities : EntityBag) : String :=
  if intent == symptomIntent then generateSymptomResponse query kgResults entities
  else if intent == medicationIntent then generateMedicationResponse kgResults
  else if intent == wellnessIntent then generateWellnessResponse kgResults
  else if intent == mentalHealthIntent then generateMentalHealthResponse kgResults
  else if intent == summaryIntent then healthSummaryText
  else genericResponse

/-- The `entities` value of the returned dictionary: the fixed flag
dictionaries of the two safety branches, or the extracted bag. -/
inductive EntitiesVal where
  | emergencyFlag : EntitiesVal
  | crisisFlag : EntitiesVal
  | bag : EntityBag → EntitiesVal

/-- The dictionary returned by `process_chat_query`. -/
structure QueryOutcome where
  response : String
  intent : String
  confidence : ℚ
  entities : EntitiesVal
  sources : List KGEntry

/-- The fixed dictionary returned by the emergency branch. -/
def emergencyOutcome : QueryOutcome :=
  { response := emergencyResponseMsg
    intent := "emergency_detected"
    confidence := 1
    entities := EntitiesVal.emergencyFlag
    sources := [] }

/-- The fixed dictionary returned by the crisis branch. -/
def crisisOutcome : QueryOutcome :=
  { response := crisisResponseMsg
    intent := "crisis_detected"
    confidence := 1
    entities := EntitiesVal.crisisFlag
    sources := [] }

/-- The per-query external dependencies of the pipeline, as loaded by
`load_models`: the intent classifier, the entity extractor and the
knowledge retriever.  Each call may raise, modelled with `Except`. -/
structure Models where
  predictIntentM : String → Except String (String × ℚ)
  extractEntitiesM : String → Except String EntityBag
  kgSearchM : String → Nat → Except String (List KGEntry)

/-- Embedding of `process_chat_query`: the emergency gate, then the crisis gate, then
normal processing (intent, entities, retrieval with `top_k = 3`, response
composition).  There is no exception handler in the source: an error from
a dependency propagates through the `do` binds to the caller. -/
def processChatQuery (models : Models) (query : String) :
    Except String QueryOutcome :=
  if emergencyBranch query then Except.ok emergencyOutcome
  else if crisisMatch query then Except.ok crisisOutcome
  else do
    let ic ← models.predictIntentM query
    let entities ← models.extractEntitiesM query
    let kgResults ← models.kgSearchM query 3
    Except.ok
      { response := composeResponse ic.1 query kgResults entities
        intent := ic.1
        confidence := ic.2
        entities := EntitiesVal.bag entities
        sources := kgResults }

/-- A model assembly whose every dependency raises: used to exhibit that
the safety branches consult no dependency and that the normal path
propagates dependency exceptions. -/
def failModels : Models :=
  { predictIntentM := fun _ => Except.error ("boom")
    extractEntitiesM := fun _ => Except.error ("boom")
    kgSearchM := fun _ _ => Except.error ("boom") }

example : emergencyBranch ("I have chest pain") = true := by decide
example : crisisMatch ("I want to die") = true := by decide
example : emergencyBranch ("I want to die") = false := by decide
example : emergencyBranch ("hello") = false := by decide
example : crisisMatch ("hello") = false := by decide

/-- The five intent labels with a dedicated branch in the response
dispatch of `process_chat_query`. -/
def definedIntents : List String :=
  [symptomIntent, medicationIntent, wellnessIntent, mentalHealthIntent, summaryIntent]

/-- The empty entity bag. -/
def emptyBag : EntityBag := ⟨[], [], [], []⟩

/-! ## Helper lemmas -/

theorem entPass_body_parts (b : EntityBag) (ent : SpacyEnt) :
    (entPass b ent).body_parts = b.body_parts := by
  unfold entPass
  split
  · rfl
  · split <;> rfl

theorem chunkPass_body_parts (b : EntityBag) (chunk : String) :
    (chunkPass b chunk).body_parts = b.body_parts := by
  unfold chunkPass
  split <;> rfl

theorem foldl_body_parts {β : Type} (g : EntityBag → β → EntityBag)
    (hg : ∀ b x, (g b x).body_parts = b.body_parts) :
    ∀ (l : List β) (b : EntityBag), (l.foldl g b).body_parts = b.body_parts := by
  intro l
  induction l with
  | nil => intro b; rfl
  | cons x t ih => intro b; rw [List.foldl_cons, ih, hg]

theorem argsortRel_total (sim : Nat → ℚ) :
    ∀ i j, argsortRel sim i j ∨ argsortRel sim j i := by
  intro i j
  rcases lt_trichotomy (sim i) (sim j) with h | h | h
  · exact Or.inl (Or.inl h)
  · rcases Nat.le_total i j with hij | hij
    · exact Or.inl (Or.inr ⟨h, hij⟩)
    · exact Or.inr (Or.inr ⟨h.symm, hij⟩)
  · exact Or.inr (Or.inl h)

theorem argsortRel_trans (sim : Nat → ℚ) :
    ∀ i j k, argsortRel sim i j → argsortRel sim j k → argsortRel sim i k := by
  intro i j k hij hjk
  rcases hij with h1 | ⟨e1, l1⟩
  · rcases hjk with h2 | ⟨e2, _⟩
    · exact Or.inl (h1.trans h2)
    · exact Or.inl (lt_of_lt_of_eq h1 e2)
  · rcases hjk with h2 | ⟨e2, l2⟩
    · exact Or.inl (lt_of_eq_of_lt e1 h2)
    · exact Or.inr ⟨e1.trans e2, l1.trans l2⟩

instance (sim : Nat → ℚ) : IsTotal Nat (argsortRel sim) :=
  ⟨argsortRel_total sim⟩

instance (sim : Nat → ℚ) : IsTrans Nat (argsortRel sim) :=
  ⟨argsortRel_trans sim⟩

theorem argsortSim_perm_range (sim : Nat → ℚ) (n : Nat) :
    List.Perm (argsortSim sim n) (List.range n) :=
  List.perm_insertionSort (argsortRel sim) (List.range n)

theorem argsortSim_nodup (sim : Nat → ℚ) (n : Nat) :
    (argsortSim sim n).Nodup :=
  (argsortSim_perm_range sim n).symm.nodup (List.nodup_range n)

/-- The argsort output is strictly sorted by (similarity, index). -/
theorem argsortSim_pairwise (sim : Nat → ℚ) (n : Nat) :
    (argsortSim sim n).Pairwise
      (fun i j => sim i < sim j ∨ (sim i = sim j ∧ i < j)) := by
  have hs : (argsortSim sim n).Pairwise (argsortRel sim) :=
    List.sorted_insertionSort (argsortRel sim) (List.range n)
  have hcomb := hs.and (argsortSim_nodup sim n)
  refine hcomb.imp ?_
  rintro a b ⟨hr | ⟨he, hle⟩, hne⟩
  · exact Or.inl hr
  · exact Or.inr ⟨he, Nat.lt_of_le_of_ne hle hne⟩

theorem pySliceLast_sublist (l : List α) (k : Nat) :
    List.Sublist (pySliceLast l k) l := by
  unfold pySliceLast
  split
  · exact List.Sublist.refl l
  · exact List.drop_sublist _ _

/-- The final index order of `search` is strictly descending by
(similarity, index): within equal similarities the larger original index
comes first. -/
theorem searchIndices_pairwise (sim : Nat → ℚ) (n k : Nat) :
    (searchIndices sim n k).Pairwise
      (fun i j => sim j < sim i ∨ (sim j = sim i ∧ j < i)) := by
  unfold searchIndices
  rw [List.pairwise_reverse]
  exact List.Pairwise.sublist (pySliceLast_sublist _ _) (argsortSim_pairwise sim n)

theorem searchIndices_mem_lt (sim : Nat → ℚ) (n k : Nat) :
    ∀ i ∈ searchIndices sim n k, i < n := by
  intro i hi
  have h1 : i ∈ pySliceLast (argsortSim sim n) k := List.mem_reverse.mp hi
  have h2 : i ∈ argsortSim sim n := (pySliceLast_sublist _ _).subset h1
  exact List.mem_range.mp ((argsortSim_perm_range sim n).mem_iff.mp h2)

theorem argsortSim_length (sim : Nat → ℚ) (n : Nat) :
    (argsortSim sim n).length = n :=
  (argsortSim_perm_range sim n).length_eq.trans (List.length_range n)

theorem filterMap_getElem?_range (kg : List α) :
    (List.range kg.length).filterMap (fun i => kg[i]?) = kg := by
  induction kg with
  | nil => rfl
  | cons a t ih =>
    rw [List.length_cons, List.range_succ_eq_map, List.filterMap_cons]
    have hcomp : ((fun i => (a :: t)[i]?) ∘ Nat.succ) = (fun i => t[i]?) := by
      funext i
      simp
    simp only [List.getElem?_cons_zero, List.filterMap_map, hcomp, ih]

theorem dropWhile_dropWhile (p : α → Bool) (l : List α) :
    (l.dropWhile p).dropWhile p = l.dropWhile p := by
  induction l with
  | nil => rfl
  | cons a t ih =>
    by_cases h : p a
    · simp [List.dropWhile_cons, h, ih]
    · simp [List.dropWhile_cons, h]

theorem head?_dropWhile_false (p : α → Bool) (l : List α) :
    ∀ a, (l.dropWhile p).head? = some a → p a = false := by
  induction l with
  | nil => intro a h; simp [List.dropWhile_nil] at h
  | cons x t ih =>
    intro a h
    by_cases hx : p x
    · rw [List.dropWhile_cons_of_pos hx] at h
      exact ih a h
    · rw [List.dropWhile_cons_of_neg hx] at h
      simp only [List.head?_cons, Option.some.injEq] at h
      rw [← h]
      exact Bool.eq_false_iff.mpr hx

theorem dropWhile_eq_self_of_head? (p : α → Bool) (l : List α)
    (h : ∀ a, l.head? = some a → p a = false) : l.dropWhile p = l := by
  cases l with
  | nil => rfl
  | cons x t =>
    rw [List.dropWhile_cons_of_neg]
    rw [h x rfl]
    exact Bool.false_ne_true

theorem getLast?_dropWhile (p : α → Bool) (l : List α)
    (h : l.dropWhile p ≠ []) : (l.dropWhile p).getLast? = l.getLast? := by
  induction l with
  | nil => simp [List.dropWhile_nil] at h
  | cons x t ih =>
    by_cases hx : p x
    · rw [List.dropWhile_cons_of_pos hx] at h ⊢
      rw [ih h]
      have ht : t ≠ [] := by
        intro e
        rw [e] at h
        exact h rfl
      cases t with
      | nil => exact absurd rfl ht
      | cons y t2 => rw [List.getLast?_cons_cons]
    · rw [List.dropWhile_cons_of_neg hx]

theorem stripList_idem (l : List Char) : stripList (stripList l) = stripList l := by
  unfold stripList
  have h1 : (((l.dropWhile isPySpace).reverse.dropWhile isPySpace).reverse).dropWhile isPySpace
      = ((l.dropWhile isPySpace).reverse.dropWhile isPySpace).reverse := by
    apply dropWhile_eq_self_of_head?
    intro a ha
    rw [List.head?_reverse] at ha
    have hne : (l.dropWhile isPySpace).reverse.dropWhile isPySpace ≠ [] := by
      intro e
      rw [e] at ha
      simp at ha
    rw [getLast?_dropWhile _ _ hne, List.getLast?_reverse] at ha
    exact head?_dropWhile_false _ _ a ha
  rw [h1, List.reverse_reverse, dropWhile_dropWhile]

/-! ## Claims -/

/-- C1: every query whose lowercased text contains an emergency keyword
and one of the substrings chest, heart or arm makes `process_chat_query`
return the fixed emergency dictionary with intent emergency_detected,
confidence 1.0 and empty sources — for every choice of intent classifier,
entity extractor and knowledge retriever, including ones that raise, which
shows none of them is invoked on this path. -/
theorem emergency_short_circuit (q : String)
    (h1 : isEmergencyMatch q = true) (h2 : hasCardiacWord q = true) :
    ∀ m : Models, processChatQuery m q = Except.ok emergencyOutcome ∧
      emergencyOutcome.intent = "emergency_detected" ∧
      emergencyOutcome.confidence = 1 ∧
      emergencyOutcome.sources = [] := by
  intro m
  refine ⟨?_, rfl, rfl, rfl⟩
  simp [processChatQuery, emergencyBranch, h1, h2]

/-- Witness for C1 at a concrete emergency query and failing dependencies. -/
theorem emergency_short_circuit_witness :
    processChatQuery failModels ("I have chest pain") = Except.ok emergencyOutcome :=
  (emergency_short_circuit ("I have chest pain") (by decide) (by decide) failModels).1

/-- C2: a query containing a self-harm phrase and failing the emergency
branch condition makes `process_chat_query` return the fixed crisis
dictionary with intent crisis_detected, confidence 1.0 and empty sources,
for every choice of downstream dependencies; and when the emergency branch
condition also holds, the emergency branch wins because it is checked
first. -/
theorem crisis_detection (q : String) (h1 : crisisMatch q = true) :
    (emergencyBranch q = false →
      ∀ m : Models, processChatQuery m q = Except.ok crisisOutcome) ∧
    (emergencyBranch q = true →
      ∀ m : Models, processChatQuery m q = Except.ok emergencyOutcome) ∧
    crisisOutcome.intent = "crisis_detected" ∧
    crisisOutcome.confidence = 1 ∧
    crisisOutcome.sources = [] := by
  refine ⟨fun he m => ?_, fun he m => ?_, rfl, rfl, rfl⟩
  · simp [processChatQuery, he, h1]
  · simp [processChatQuery, he]

/-- Witness for C2 at a concrete self-harm query with no cardiac word. -/
theorem crisis_detection_witness :
    processChatQuery failModels ("I want to die") = Except.ok crisisOutcome :=
  (crisis_detection ("I want to die") (by decide)).1 (by decide) failModels

/-- C3: the intent classifier is the fixed priority cascade written in
`predict_intent`; a text satisfying both the priority 1 mental health rule
and the priority 2 medication rule classifies as mental_health with
confidence 0.95, for every statistical fallback model. -/
theorem priority_cascade (t : String)
    (h1 : mentalHealthRule t = true) (h2 : medicationRule t = true) :
    ∀ ml : String → String × ℚ,
      predictIntent ml t = (mentalHealthIntent, 95 / 100) := by
  intro ml
  simp [predictIntent, h1]

/-- Witness for C3 at a concrete query matching both rule groups. -/
theorem priority_cascade_witness :
    predictIntent (fun _ => ("", 0)) ("What is aspirin? I feel so much stress") =
      (mentalHealthIntent, 95 / 100) :=
  priority_cascade ("What is aspirin? I feel so much stress")
    (by decide) (by decide) (fun _ => ("", 0))

/-- C9 evidence: `process_chat_query` contains no exception handler, so a
dependency failure on the normal path propagates to the caller as an
error instead of degrading to the generic rephrase response. -/
theorem exception_propagates :
    processChatQuery failModels ("hello") = Except.error ("boom") := by rfl

/-- C10: neither pass of `extract_entities` ever appends to body_parts,
so the returned bag has an empty body_parts list for every spaCy pipeline
and every input text. -/
theorem body_parts_always_empty :
    ∀ (nlp : String → SpacyDoc) (text : String),
      (extractEntities nlp text).body_parts = [] := by
  intro nlp text
  unfold extractEntities
  rw [foldl_body_parts chunkPass chunkPass_body_parts,
    foldl_body_parts entPass entPass_body_parts]

/-- C8: with empty retrieval results, each of the five defined intents
gets its own fixed canned reply, the six canned strings (five fallbacks
and the generic clarification) are pairwise distinct, and every
unrecognized intent label gets the generic clarification prompt. -/
theorem composer_fallback :
    (∀ q e, composeResponse symptomIntent q [] e = symptomFallback) ∧
    (∀ q e, composeResponse medicationIntent q [] e = medicationFallback) ∧
    (∀ q e, composeResponse wellnessIntent q [] e = wellnessFallback) ∧
    (∀ q e, composeResponse mentalHealthIntent q [] e = mentalHealthFallback) ∧
    (∀ q e, composeResponse summaryIntent q [] e = healthSummaryText) ∧
    [symptomFallback, medicationFallback, wellnessFallback, mentalHealthFallback,
      healthSummaryText, genericResponse].Nodup ∧
    (∀ i, i ∉ definedIntents →
      ∀ q e, composeResponse i q [] e = genericResponse) := by
  refine ⟨fun q e => rfl, fun q e => rfl, fun q e => rfl, fun q e => rfl,
    fun q e => rfl, by decide, ?_⟩
  intro i h q e
  have h1 : (i == symptomIntent) = false :=
    beq_eq_false_iff_ne.mpr (fun he => h (by simp [definedIntents, he]))
  have h2 : (i == medicationIntent) = false :=
    beq_eq_false_iff_ne.mpr (fun he => h (by simp [definedIntents, he]))
  have h3 : (i == wellnessIntent) = false :=
    beq_eq_false_iff_ne.mpr (fun he => h (by simp [definedIntents, he]))
  have h4 : (i == mentalHealthIntent) = false :=
    beq_eq_false_iff_ne.mpr (fun he => h (by simp [definedIntents, he]))
  have h5 : (i == summaryIntent) = false :=
    beq_eq_false_iff_ne.mpr (fun he => h (by simp [definedIntents, he]))
  simp [composeResponse, h1, h2, h3, h4, h5]

/-- Witness for C8 at a concrete unrecognized intent label. -/
theorem composer_fallback_witness :
    composeResponse ("greeting") ("") [] emptyBag = genericResponse :=
  composer_fallback.2.2.2.2.2.2 ("greeting") (by decide) ("") emptyBag

/-- An input on which `sanitize_input` is not idempotent: the letter a,
one thousand spaces, then the letter b.  Stripping removes nothing, the
truncation to 1000 characters cuts the final b and leaves 999 trailing
spaces, and a second sanitization strips them. -/
def sanitizeCounterInput : String :=
  ⟨'a' :: (List.replicate 1000 ' ' ++ ['b'])⟩

set_option maxRecDepth 100000

/-- C4 counterexample: `sanitize_input` applied twice to the concrete
input differs from one application, because truncation can expose new
trailing whitespace. -/
theorem sanitize_not_idempotent :
    sanitizeInput (sanitizeInput sanitizeCounterInput) ≠
      sanitizeInput sanitizeCounterInput := by decide

/-- C4 amended: the output of `sanitize_input` always has at most 1000
characters, and sanitization is idempotent on every input whose stripped
form already fits within the 1000 character bound (truncation does
nothing there, and stripping alone is idempotent). -/
theorem sanitize_bound_and_conditional_idem :
    (∀ s : String, (sanitizeInput s).length ≤ 1000) ∧
    (∀ s : String, (stripList s.data).length ≤ 1000 →
      sanitizeInput (sanitizeInput s) = sanitizeInput s) := by
  constructor
  · intro s
    show ((stripList s.data).take 1000).length ≤ 1000
    exact List.length_take_le 1000 (stripList s.data)
  · intro s h
    have h2 : sanitizeInput s = ⟨stripList s.data⟩ := by
      unfold sanitizeInput
      rw [List.take_of_length_le h]
    rw [h2]
    show (⟨(stripList (stripList s.data)).take 1000⟩ : String) = ⟨stripList s.data⟩
    rw [stripList_idem, List.take_of_length_le h]

/-- Witness for the amended C4 at a concrete short input. -/
theorem sanitize_bound_and_conditional_idem_witness :
    sanitizeInput (sanitizeInput ("  hi  ")) = sanitizeInput ("  hi  ") :=
  sanitize_bound_and_conditional_idem.2 ("  hi  ") (by decide)

/-- A two-keyword entry separating the two readings of the keyword
repetition. -/
def docEntry : KGEntry := ⟨"t", ["a", "b"], "c"⟩

/-- C7 counterexample: with keywords a and b, the source builds the
document by repeating the already space-joined string five times with no
separator between repetitions, fusing the last keyword of one repetition
with the first keyword of the next; the document the claim describes,
with every adjacent pair of keyword occurrences space-separated, differs. -/
theorem document_repetition_counterexample :
    buildDocument docEntry = "t a ba ba ba ba b c" ∧
    specDocument docEntry = "t a b a b a b a b a b c" ∧
    buildDocument docEntry ≠ specDocument docEntry := by
  refine ⟨rfl, rfl, ?_⟩
  decide

/-- A first concrete knowledge entry. -/
def sleepEntry : KGEntry := ⟨"sleep", ["sleep"], "sleep content"⟩

/-- A second concrete knowledge entry, distinct from the first. -/
def dietEntry : KGEntry := ⟨"diet", ["diet"], "diet content"⟩

/-- C5 counterexample: on a one-entry knowledge base and a query with
zero overlap with the vocabulary (every cosine similarity is zero),
search with the default top_k = 3 still returns the entry, and search
with top_k = 0 also returns the entry (the Python slice [-0:] selects
the whole argsort array), so neither degenerate case yields an empty
sequence. -/
theorem search_degenerate_counterexample :
    searchModel (fun _ => (0 : ℚ)) [sleepEntry] 3 = [sleepEntry] ∧
    searchModel (fun _ => (0 : ℚ)) [sleepEntry] 0 = [sleepEntry] ∧
    searchModel (fun _ => (0 : ℚ)) [sleepEntry] 3 ≠ [] ∧
    searchModel (fun _ => (0 : ℚ)) [sleepEntry] 0 ≠ [] := by
  refine ⟨rfl, rfl, ?_, ?_⟩ <;> decide

/-- C5 amended: `search` never raises (its model is a total function);
an empty knowledge base yields the empty sequence for every similarity
profile and every top_k; but on a nonempty knowledge base the result is
never empty — a zero-overlap query (all similarities zero) included —
and top_k = 0 returns each entry of the knowledge base exactly once
rather than the empty sequence. -/
theorem search_degenerate_behavior :
    (∀ (sim : Nat → ℚ) (k : Nat), searchModel sim [] k = []) ∧
    (∀ (sim : Nat → ℚ) (kg : List KGEntry),
      List.Perm (searchModel sim kg 0) kg) ∧
    (∀ (sim : Nat → ℚ) (kg : List KGEntry) (k : Nat),
      kg ≠ [] → searchModel sim kg k ≠ []) := by
  refine ⟨?_, ?_, ?_⟩
  · intro sim k
    have ha : argsortSim sim (List.length ([] : List KGEntry)) = [] := rfl
    simp [searchModel, searchIndices, pySliceLast, ha]
  · intro sim kg
    have h0 : List.Perm (searchIndices sim kg.length 0) (List.range kg.length) := by
      unfold searchIndices pySliceLast
      rw [if_pos rfl]
      exact (List.reverse_perm _).trans (argsortSim_perm_range sim kg.length)
    have h2 : List.Perm
        ((searchIndices sim kg.length 0).filterMap (fun i => kg[i]?))
        ((List.range kg.length).filterMap (fun i => kg[i]?)) :=
      h0.filterMap _
    rw [filterMap_getElem?_range kg] at h2
    exact h2
  · intro sim kg k hkg heq
    have hn : 0 < kg.length := List.length_pos.mpr hkg
    have hslice : 0 < (pySliceLast (argsortSim sim kg.length) k).length := by
      unfold pySliceLast
      split
      · rw [argsortSim_length]
        exact hn
      · rw [List.length_drop, argsortSim_length]
        omega
    have hpos : 0 < (searchIndices sim kg.length k).length := by
      unfold searchIndices
      rw [List.length_reverse]
      exact hslice
    obtain ⟨i, hi⟩ := List.exists_mem_of_length_pos hpos
    have hilt : i < kg.length := searchIndices_mem_lt sim kg.length k i hi
    have hnone : kg[i]? = none :=
      List.filterMap_eq_nil_iff.mp heq i hi
    rw [List.getElem?_eq_none_iff] at hnone
    omega

/-- Witness for the amended C5 at a concrete nonempty knowledge base and
a zero-overlap similarity profile. -/
theorem search_degenerate_behavior_witness :
    searchModel (fun _ => (0 : ℚ)) [sleepEntry, dietEntry] 3 ≠ [] :=
  search_degenerate_behavior.2.2 (fun _ => (0 : ℚ)) [sleepEntry, dietEntry] 3
    (by decide)

/-- C6 counterexample: a two-entry knowledge base and a query with equal
similarity to both rows (zero overlap).  The ascending stable argsort is
[0, 1]; the slice and reversal turn it into [1, 0], so the entry with the
larger original index comes first among ties, contradicting the claimed
smaller-index-first tie-breaking. -/
theorem search_tie_counterexample :
    searchModel (fun _ => (0 : ℚ)) [sleepEntry, dietEntry] 2 =
      [dietEntry, sleepEntry] ∧
    sleepEntry ≠ dietEntry := by
  exact ⟨rfl, by decide⟩

/-- C6 amended: for every similarity profile and top_k > 0 the result of
`search` is the index list `top_indices` mapped through the knowledge
base, `top_indices` is ordered by non-increasing similarity, and whenever
two selected indices have equal similarity the larger original index
comes first (the reversal of the ascending stable argsort). -/
theorem search_ordering (sim : Nat → ℚ) (kg : List KGEntry) (k : Nat)
    (hk : 0 < k) :
    searchModel sim kg k =
      (searchIndices sim kg.length k).filterMap (fun i => kg[i]?) ∧
    (searchIndices sim kg.length k).Pairwise (fun i j => sim j ≤ sim i) ∧
    (searchIndices sim kg.length k).Pairwise
      (fun i j => sim i = sim j → j < i) := by
  refine ⟨rfl, ?_, ?_⟩
  · refine (searchIndices_pairwise sim kg.length k).imp ?_
    rintro a b (h | ⟨he, _⟩)
    · exact le_of_lt h
    · exact le_of_eq he
  · refine (searchIndices_pairwise sim kg.length k).imp ?_
    rintro a b (h | ⟨he, hlt⟩)
    · exact fun habs => absurd habs.symm (ne_of_lt h)
    · exact fun _ => hlt

/-- Witness for the amended C6 at a concrete similarity profile with
top_k = 2. -/
theorem search_ordering_witness :
    (searchIndices (fun _ => (0 : ℚ)) 2 2).Pairwise
      (fun i j => (fun _ => (0 : ℚ)) i = (fun _ => (0 : ℚ)) j → j < i) :=
  (search_ordering (fun _ => (0 : ℚ)) [sleepEntry, dietEntry] 2
    (by decide)).2.2

/-- C7 amended: for each entry the synthetic search document is the
topic, a space, the space-joined keyword list concatenated five times
with no separator between repetitions, a space, and the content; there is
exactly one document per entry, at the same ordinal position. -/
theorem document_construction (kg : List KGEntry) (i : Nat) :
    (buildDocuments kg).length = kg.length ∧
    (buildDocuments kg)[i]? = kg[i]?.map (fun e =>
      e.topic ++ " " ++ pyRepeat (String.intercalate (" ") e.keywords) 5 ++
        " " ++ e.content) := by
  constructor
  · simp [buildDocuments]
  · rw [buildDocuments, List.getElem?_map]
    rfl



